import Mathlib

/-!
Verification development for the CATCH calibrator pipeline (`catch.py`).

The program has two modes:
* `cal_finder` (discovery): queries the JSDC diameter catalogue around a target,
  cross-matches the survivors against the Gaia DR3, Kervella 2019, and
  Cruzalebes (MDFC) catalogues (each cross-match result carries a 1-based
  back-pointer column `_q` into the query's reference table), optionally removes
  candidates with close Gaia companions, assembles the surviving columns into one
  widened table, applies a cross-catalogue diameter-consistency filter, and
  writes the table to a file.
* `cal_checker` (verification): queries each catalogue around a single candidate
  and keeps a running pass tally `check_pass_count`, started at 4 (or 5 when the
  companion check is enabled), decremented by per-stage penalties, and finally
  classified by the ratio `check_pass_count / init_check_pass_count`.

Remote catalogue queries are modelled as oracle functions from the reference
table to the returned rows; numeric catalogue values are `ℚ`, and fields that the
catalogue may report as masked are `Option ℚ` (`none` = masked).  Fallible steps
(`exit` calls, table indexing) are modelled with `Option`.
-/

namespace Catch

/-- Comparison against a possibly masked value: a masked value compares falsy,
matching both numpy's masked comparison semantics and the explicit
`(x is not np.ma.masked) and (x > t)` guards in `cal_checker`. -/
def maskedGT (v : Option ℚ) (t : ℚ) : Bool :=
  match v with
  | none => false
  | some x => decide (x > t)

/-- Row of the JSDC (JMMC Stellar Diameters) result, with the projected columns
`_RAJ2000, _DEJ2000, Name, SpType, Vmag, Rmag, Hmag, Kmag, UDDH, UDDK, _r`. -/
structure JmmcRow where
  raj2000 : ℚ
  dej2000 : ℚ
  name : String
  spType : String
  vmag : ℚ
  rmag : ℚ
  hmag : ℚ
  kmag : ℚ
  uddh : ℚ
  uddk : ℚ
  r : ℚ
deriving DecidableEq

/-- Row of a Gaia DR3 result, with the projected columns
`_RAJ2000, _DEJ2000, IPDfmp, RUWE, RVamp, Vbroad, _r` plus the catalogue-reported
1-based back-pointer `_q` into the query's reference table. -/
structure GaiaRow where
  raj2000 : ℚ
  dej2000 : ℚ
  ipdfmp : Option ℚ
  ruwe : Option ℚ
  rvamp : Option ℚ
  vbroad : Option ℚ
  r : ℚ
  q : ℕ
deriving DecidableEq

/-- Row of a Kervella et al. 2019 result, with the projected columns
`_RAJ2000, _DEJ2000, Name, DMS, W, BinH, BinG2` plus the back-pointer `_q`. -/
structure KervellaRow where
  raj2000 : ℚ
  dej2000 : ℚ
  name : String
  dms : ℤ
  w : ℤ
  binH : ℤ
  binG2 : ℤ
  q : ℕ
deriving DecidableEq

/-- Row of a Cruzalebes (MDFC) result, with the projected columns
`Diam-GAIA, CalFlag, IRflag` plus the back-pointer `_q`. -/
structure CruzRow where
  diamGaia : ℚ
  calFlag : ℤ
  irflag : ℤ
  q : ℕ
deriving DecidableEq

/-- The `column_filters` of the JSDC query in `cal_finder`:
`Vmag < 9.0, Hmag <= 6.4, UDDH < 0.4, _DEJ2000 > -25`
(the remote service returns exactly the rows satisfying them). -/
def jmmcColumnFilters (row : JmmcRow) : Bool :=
  decide (row.vmag < 9) && decide (row.hmag ≤ 32/5) && decide (row.uddh < 2/5) &&
    decide (row.dej2000 > -25)

/-- The `column_filters` of the Cruzalebes (MDFC) query in `cal_finder`:
`CalFlag = 0, IRflag = 0`. -/
def cruzColumnFilters (row : CruzRow) : Bool :=
  decide (row.calFlag = 0) && decide (row.irflag = 0)

/-- `removal_list = [item for item, count in Counter(neighbors[_q]).items() if count > 1]`:
the `_q` values that occur on more than one row of the companion query result. -/
def removalList (qs : List ℕ) : List ℕ :=
  qs.dedup.filter (fun v => decide (qs.count v > 1))

/-- The companion-removal block of `cal_finder`: when the removal list is
non-empty, keep the Gaia rows whose own `_q` value is not in it
(`gaia_result[~np.isin(gaia_result[_q], removal_list)]`). -/
def companionFilter (gaia : List GaiaRow) (neighbors : List GaiaRow) : List GaiaRow :=
  let rem := removalList (neighbors.map (fun n => n.q))
  if rem.isEmpty then gaia else gaia.filter (fun g => !(rem.contains g.q))

/-- Python truthiness of the `gaia_comp_check` argument of `cal_finder`
(`None` and `0.0` are falsy; any non-zero radius is truthy). -/
def pyTruthy (x : Option ℚ) : Bool :=
  match x with
  | none => false
  | some v => decide (v ≠ 0)

/-- The Gaia-stage survivor set of `cal_finder`: the Gaia query result, with the
companion-removal block applied when `if gaia_comp_check:` is truthy. -/
def finderGaia (gaiaQuery : List JmmcRow → List GaiaRow)
    (neighborsQuery : List GaiaRow → ℚ → List GaiaRow)
    (compCheck : Option ℚ) (jmmc : List JmmcRow) : List GaiaRow :=
  let g0 := gaiaQuery jmmc
  if pyTruthy compCheck then companionFilter g0 (neighborsQuery g0 (compCheck.getD 0)) else g0

/-- A row of the final cross-check table `fcct`: the JSDC, Gaia, Kervella and
Cruzalebes columns retained for one surviving candidate. -/
structure FinalRow where
  jmmc : JmmcRow
  gaia : GaiaRow
  kerv : KervellaRow
  cruz : CruzRow
deriving DecidableEq

/-- Assembly of the final cross-check table by the chain of `hstack`s: each
Cruzalebes row is joined, via the locally converted 0-based indices `ind = _q - 1`,
to its Kervella row, which is joined to its Gaia row, which is joined to its JSDC
row.  An out-of-range index (which would make the numpy fancy indexing fail)
yields `none`. -/
def fcctRows (jmmc : List JmmcRow) (gaia : List GaiaRow) (kerv : List KervellaRow) :
    List CruzRow → Option (List FinalRow)
  | [] => some []
  | c :: cs => do
    let k ← kerv.get? (c.q - 1)
    let g ← gaia.get? (k.q - 1)
    let j ← jmmc.get? (g.q - 1)
    let rest ← fcctRows jmmc gaia kerv cs
    pure (⟨j, g, k, c⟩ :: rest)

/-- The cross-catalogue diameter-consistency filter of `cal_finder`:
`fcct = fcct[(abs(Diam-GAIA - UDDH) < 0.075) & (abs(Diam-GAIA - UDDK) < 0.075)]`. -/
def diamFilter (rows : List FinalRow) : List FinalRow :=
  rows.filter (fun row =>
    decide (|row.cruz.diamGaia - row.jmmc.uddh| < 3/40) &&
    decide (|row.cruz.diamGaia - row.jmmc.uddk| < 3/40))

/-- `cal_finder`, as a function of the target's resolved declination, the JSDC
query response, the later catalogue queries (oracles keyed by their reference
table), and the `gaia_comp_check` argument.  `none` models a run that persists
no file (an `exit` on the declination limit or on an empty catalogue stage, or a
failing table indexing); `some rows` models a completed run that writes the
output file containing `rows`. -/
def cal_finder (starDec : ℚ) (jmmcResp : List JmmcRow)
    (gaiaQuery : List JmmcRow → List GaiaRow)
    (neighborsQuery : List GaiaRow → ℚ → List GaiaRow)
    (kervQuery : List GaiaRow → List KervellaRow)
    (cruzQuery : List KervellaRow → List CruzRow)
    (compCheck : Option ℚ) : Option (List FinalRow) :=
  if starDec ≤ -25 then none
  else if jmmcResp.isEmpty then none
  else if (gaiaQuery jmmcResp).isEmpty then none
  else
    let gaia := finderGaia gaiaQuery neighborsQuery compCheck jmmcResp
    if (kervQuery gaia).isEmpty then none
    else if (cruzQuery (kervQuery gaia)).isEmpty then none
    else (fcctRows jmmcResp gaia (kervQuery gaia) (cruzQuery (kervQuery gaia))).map diamFilter

/-- The single JSDC row examined by `cal_checker` (fields may be masked). -/
structure JmmcVRow where
  vmag : Option ℚ
  hmag : Option ℚ
  uddh : Option ℚ
deriving DecidableEq

/-- A Gaia DR3 row examined by `cal_checker` (fields may be masked). -/
structure GaiaVRow where
  ipdfmp : Option ℚ
  ruwe : Option ℚ
  rvamp : Option ℚ
  vbroad : Option ℚ
deriving DecidableEq

/-- The single Kervella row examined by `cal_checker`. -/
structure KervVRow where
  dms : ℤ
  w : ℤ
  binH : ℤ
  binG2 : ℤ
deriving DecidableEq

/-- The single Cruzalebes (MDFC) row examined by `cal_checker`. -/
structure CruzVRow where
  calFlag : ℤ
  irflag : ℤ
deriving DecidableEq

/-- The final verdict printed by `cal_checker`. -/
inductive Classification where
  | ideal
  | usable
  | notViable
deriving DecidableEq

/-- The JSDC sub-check of `cal_checker`:
`(Vmag > 9) | (Hmag > 6.4) | (UDDH > 0.5)` (a masked column compares falsy). -/
def jmmcCheckFail (row : JmmcVRow) : Bool :=
  maskedGT row.vmag 9 || maskedGT row.hmag (32/5) || maskedGT row.uddh (1/2)

/-- Penalty of the JSDC stage of `cal_checker`: 1 when the check fails, 1 when
the candidate is not found in the catalogue, 0 otherwise. -/
def jmmcPenalty (resp : Option JmmcVRow) : ℤ :=
  match resp with
  | some row => if jmmcCheckFail row then 1 else 0
  | none => 1

/-- The Gaia threshold check of `cal_checker`:
`((IPDfmp is not masked) and (IPDfmp > 2)) | ((RUWE is not masked) and (RUWE > 1.4))
 | ((Vbroad is not masked) and (Vbroad > 100))`. -/
def gaiaThresholdFail (row : GaiaVRow) : Bool :=
  maskedGT row.ipdfmp 2 || maskedGT row.ruwe (7/5) || maskedGT row.vbroad 100

/-- Penalty of the Vbroad/threshold section of the Gaia stage of `cal_checker`:
a masked Vbroad takes the dedicated absence branch (5 points) and the threshold
check is not evaluated; otherwise a threshold failure costs 1 point, plus 5 more
when `Vbroad > 100`. -/
def gaiaCheck (row : GaiaVRow) : ℤ :=
  match row.vbroad with
  | none => 5
  | some _ =>
    if gaiaThresholdFail row then 1 + (if maskedGT row.vbroad 100 then 5 else 0) else 0

/-- The Kervella binarity check of `cal_checker`: fails when any of the four
binarity indicators is non-zero. -/
def kervCheckFail (row : KervVRow) : Bool :=
  decide (row.dms ≠ 0) || decide (row.w ≠ 0) || decide (row.binH ≠ 0) ||
    decide (row.binG2 ≠ 0)

/-- Penalty of the Kervella stage of `cal_checker`: 5 when the binarity check
fails, 1 when the candidate is not found, 0 otherwise. -/
def kervPenalty (resp : Option KervVRow) : ℤ :=
  match resp with
  | some row => if kervCheckFail row then 5 else 0
  | none => 1

/-- The Cruzalebes (MDFC) check of `cal_checker`:
`(CalFlag != 0) | (IRflag == 7)`. -/
def cruzCheckFail (row : CruzVRow) : Bool :=
  decide (row.calFlag ≠ 0) || decide (row.irflag = 7)

/-- Penalty of the Cruzalebes stage of `cal_checker`: 1 when the check fails,
1 when the candidate is not found, 0 otherwise. -/
def cruzPenalty (resp : Option CruzVRow) : ℤ :=
  match resp with
  | some row => if cruzCheckFail row then 1 else 0
  | none => 1

/-- Penalty of the companion block of `cal_checker`: 1 point when the Gaia query
returned more than one row and the optional companion check is enabled. -/
def companionPenalty (compCheck : Bool) (hasCompanions : Bool) : ℤ :=
  if hasCompanions && compCheck then 1 else 0

/-- `init_check_pass_count`: 5 when the companion check is enabled, 4 otherwise. -/
def initTotal (compCheck : Bool) : ℤ :=
  if compCheck then 5 else 4

/-- The five decrements applied to `check_pass_count` by `cal_checker`, in
program order: JSDC, companion block, Gaia Vbroad/threshold section, Kervella,
Cruzalebes. -/
def checkerPenalties (compCheck : Bool) (jmmcResp : Option JmmcVRow) (g0 : GaiaVRow)
    (hasCompanions : Bool) (kervResp : Option KervVRow) (cruzResp : Option CruzVRow) :
    List ℤ :=
  [jmmcPenalty jmmcResp, companionPenalty compCheck hasCompanions, gaiaCheck g0,
    kervPenalty kervResp, cruzPenalty cruzResp]

/-- The running values of `check_pass_count`: the initial total followed by the
value after each successive decrement. -/
def runningScores (total : ℤ) : List ℤ → List ℤ
  | [] => [total]
  | p :: ps => total :: runningScores (total - p) ps

/-- The final classification of `cal_checker`, from the ratio
`check_pass_count / init_check_pass_count` (Python float division, modelled
exactly in `ℚ`): ratio 1 is "ideal", ratio in [0.7, 1) is "usable", anything
else is "not viable" (with the bad-calibrator-registry recommendation). -/
def classify (score total : ℤ) : Classification :=
  if (score : ℚ) / (total : ℚ) = 1 then Classification.ideal
  else if (score : ℚ) / (total : ℚ) < 1 ∧ (score : ℚ) / (total : ℚ) ≥ 7/10 then
    Classification.usable
  else Classification.notViable

/-- `cal_checker`, as a function of the candidate's resolved declination, the
companion-check toggle, and the four catalogue responses (`none` / `[]` = the
candidate was not found there).  The result is `none` when the run aborts (the
declination limit, or the `exit` on a Gaia non-detection) and
`some (score, total, classification)` when it runs to completion. -/
def cal_checker (starDec : ℚ) (compCheck : Bool) (jmmcResp : Option JmmcVRow)
    (gaiaResp : List GaiaVRow) (kervResp : Option KervVRow) (cruzResp : Option CruzVRow) :
    Option (ℤ × ℤ × Classification) :=
  if starDec ≤ -25 then none
  else
    match gaiaResp with
    | [] => none
    | g0 :: rest =>
      let total := initTotal compCheck
      let score := total -
        (checkerPenalties compCheck jmmcResp g0 (decide ((g0 :: rest).length > 1))
          kervResp cruzResp).sum
      some (score, total, classify score total)

/-- A sample JSDC row (passes every discovery filter; UDDH = UDDK = 0.4). -/
def jRow : JmmcRow :=
  ⟨10, 10, "HD 1", "G2V", 8, 8, 6, 6, 2/5, 2/5, 1⟩

/-- A sample Gaia row with back-pointer `_q = 1` and all fields present. -/
def gRow : GaiaRow :=
  ⟨10, 10, some 1, some 1, some 0, some 50, 1, 1⟩

/-- A sample Kervella row with back-pointer `_q = 1` and all indicators zero. -/
def kRow : KervellaRow :=
  ⟨10, 10, "HD 1", 0, 0, 0, 0, 1⟩

/-- A sample Cruzalebes row with back-pointer `_q = 1` whose Gaia diameter
estimate agrees with the sample JSDC diameters. -/
def cRow : CruzRow :=
  ⟨2/5, 0, 0, 1⟩

/-- A sample Cruzalebes row whose Gaia diameter estimate is far from the sample
JSDC diameters, so the assembled row fails the diameter-consistency filter. -/
def cFarRow : CruzRow :=
  ⟨10, 0, 0, 1⟩

/-- A sample Gaia row for `cal_checker` that passes every threshold. -/
def gVRow : GaiaVRow :=
  ⟨some 1, some 1, some 0, some 50⟩

/-- C2 counterexample: the claim that a masked IPDfmp (or RUWE) is never
silently counted as satisfying its filter is false.  A record with a masked
IPDfmp, RUWE = 1.0 and Vbroad = 50 gets penalty 0 from the Gaia stage — the same
silent pass outcome as a record whose IPDfmp genuinely satisfies `IPDfmp < 2`. -/
theorem c2_counterexample :
    ¬ (∀ row : GaiaVRow, row.ipdfmp = none → gaiaCheck row ≠ 0) := by
  intro h
  exact h ⟨none, some 1, some 0, some 50⟩ rfl
    (by norm_num [gaiaCheck, gaiaThresholdFail, maskedGT])

/-- C2 (amended): a masked Vbroad always takes the dedicated absence branch
(penalty 5, never the pass outcome); a masked IPDfmp or RUWE never triggers a
threshold failure, but when Vbroad is present it is silently treated exactly as
a value satisfying its filter (the stage outcome is the same as with the
passing value 0). -/
theorem c2_amended :
    (∀ ip ru rv : Option ℚ, gaiaCheck ⟨ip, ru, rv, none⟩ = 5) ∧
    (∀ ru rv vb : Option ℚ, gaiaCheck ⟨none, ru, rv, vb⟩ = gaiaCheck ⟨some 0, ru, rv, vb⟩) ∧
    (∀ ip rv vb : Option ℚ, gaiaCheck ⟨ip, none, rv, vb⟩ = gaiaCheck ⟨ip, some 0, rv, vb⟩) := by
  refine ⟨fun ip ru rv => rfl, fun ru rv vb => ?_, fun ip rv vb => ?_⟩ <;>
    cases vb <;> simp [gaiaCheck, gaiaThresholdFail, maskedGT] <;> norm_num

/-- C5 counterexample: the claim that the Cruzalebes stage accepts in both modes
iff `CalFlag = 0 ∧ IRflag ≠ 7` is false in discovery mode: a row with
`CalFlag = 0` and `IRflag = 3` satisfies the claimed predicate but is rejected
by the pushed-down `column_filters` `CalFlag = 0, IRflag = 0`. -/
theorem c5_counterexample :
    ¬ (∀ row : CruzRow, cruzColumnFilters row = true ↔ (row.calFlag = 0 ∧ row.irflag ≠ 7)) := by
  intro h
  have hrow := (h ⟨0, 0, 3, 1⟩).2 ⟨rfl, by decide⟩
  exact absurd hrow (by decide)

/-- C5 (amended): in verification mode the Cruzalebes stage accepts iff
`CalFlag = 0 ∧ IRflag ≠ 7`; in discovery mode the pushed-down filter instead
requires `CalFlag = 0 ∧ IRflag = 0`. -/
theorem c5_amended :
    (∀ row : CruzVRow, cruzCheckFail row = false ↔ (row.calFlag = 0 ∧ row.irflag ≠ 7)) ∧
    (∀ row : CruzRow, cruzColumnFilters row = true ↔ (row.calFlag = 0 ∧ row.irflag = 0)) := by
  constructor <;> intro row <;>
    simp [cruzCheckFail, cruzColumnFilters, not_or]

/-- C7 counterexample: the claim that the verification-mode JSDC check passes
iff `V < 9.0 ∧ H ≤ 6.4 ∧ UDDH ≤ 0.5` is false at the boundary `V = 9.0`: the
code only fails on `Vmag > 9`, so a record with `V = 9, H = 6, UDDH = 0.4`
passes although the claimed predicate rejects it. -/
theorem c7_counterexample :
    ¬ (∀ v h u : ℚ, jmmcCheckFail ⟨some v, some h, some u⟩ = false ↔
        (v < 9 ∧ h ≤ 32/5 ∧ u ≤ 1/2)) := by
  intro hcl
  have h9 := (hcl 9 6 (2/5)).1 (by norm_num [jmmcCheckFail, maskedGT])
  exact absurd h9.1 (lt_irrefl 9)

/-- C7 (amended): the discovery-mode JSDC filter is
`V < 9.0 ∧ H ≤ 6.4 ∧ UDDH < 0.4` (together with the pushed-down `Dec > -25`);
the verification-mode check passes iff `V ≤ 9.0 ∧ H ≤ 6.4 ∧ UDDH ≤ 0.5`
(the V-magnitude boundary is inclusive, not strict). -/
theorem c7_amended :
    (∀ row : JmmcRow, jmmcColumnFilters row = true ↔
        (row.vmag < 9 ∧ row.hmag ≤ 32/5 ∧ row.uddh < 2/5 ∧ row.dej2000 > -25)) ∧
    (∀ v h u : ℚ, jmmcCheckFail ⟨some v, some h, some u⟩ = false ↔
        (v ≤ 9 ∧ h ≤ 32/5 ∧ u ≤ 1/2)) := by
  constructor
  · intro row
    simp [jmmcColumnFilters, and_assoc]
  · intro v h u
    simp [jmmcCheckFail, maskedGT, not_lt, and_assoc]

/-- C9: whenever the candidate's Vbroad is masked, the Gaia stage of
`cal_checker` applies only the 5-point absence penalty; the IPDfmp and RUWE
thresholds are not evaluated, so no additional 1-point stage penalty is incurred
for any IPDfmp or RUWE values (masked or exceeding their thresholds). -/
theorem c9_masked_vbroad_absence_only (ip ru rv : Option ℚ) :
    gaiaCheck ⟨ip, ru, rv, none⟩ = 5 :=
  rfl

/-- C10: in discovery mode a companion-exclusion radius of exactly 0 disables
the companion stage entirely: the run is identical to a run without the check,
and its result does not depend on the companion-query oracle at all (the query
is never consulted). -/
theorem c10_zero_radius_disables (starDec : ℚ) (jmmcResp : List JmmcRow)
    (gaiaQuery : List JmmcRow → List GaiaRow)
    (nq nq' : List GaiaRow → ℚ → List GaiaRow)
    (kervQuery : List GaiaRow → List KervellaRow)
    (cruzQuery : List KervellaRow → List CruzRow) :
    cal_finder starDec jmmcResp gaiaQuery nq kervQuery cruzQuery (some 0) =
      cal_finder starDec jmmcResp gaiaQuery nq' kervQuery cruzQuery none := by
  simp [cal_finder, finderGaia, pyTruthy]

theorem jmmcPenalty_bounds (resp : Option JmmcVRow) :
    0 ≤ jmmcPenalty resp ∧ jmmcPenalty resp ≤ 1 := by
  cases resp with
  | none => exact ⟨by norm_num [jmmcPenalty], by norm_num [jmmcPenalty]⟩
  | some row => by_cases hf : jmmcCheckFail row <;> simp [jmmcPenalty, hf]

theorem kervPenalty_bounds (resp : Option KervVRow) :
    0 ≤ kervPenalty resp ∧ kervPenalty resp ≤ 5 := by
  cases resp with
  | none => exact ⟨by norm_num [kervPenalty], by norm_num [kervPenalty]⟩
  | some row => by_cases hf : kervCheckFail row <;> simp [kervPenalty, hf]

theorem cruzPenalty_bounds (resp : Option CruzVRow) :
    0 ≤ cruzPenalty resp ∧ cruzPenalty resp ≤ 1 := by
  cases resp with
  | none => exact ⟨by norm_num [cruzPenalty], by norm_num [cruzPenalty]⟩
  | some row => by_cases hf : cruzCheckFail row <;> simp [cruzPenalty, hf]

theorem companionPenalty_bounds (compCheck hasCompanions : Bool) :
    0 ≤ companionPenalty compCheck hasCompanions ∧
      companionPenalty compCheck hasCompanions ≤ (if compCheck then 1 else 0) := by
  cases compCheck <;> cases hasCompanions <;> simp [companionPenalty]

theorem gaiaCheck_bounds (row : GaiaVRow) : 0 ≤ gaiaCheck row ∧ gaiaCheck row ≤ 6 := by
  rcases row with ⟨ip, ru, rv, vb⟩
  cases vb with
  | none => exact ⟨by norm_num [gaiaCheck], by norm_num [gaiaCheck]⟩
  | some x =>
    simp only [gaiaCheck]
    split_ifs <;> omega

theorem runningScores_head (total : ℤ) (ps : List ℤ) :
    (runningScores total ps).head? = some total := by
  cases ps <;> rfl

theorem runningScores_chain (total : ℤ) (ps : List ℤ) (h : ∀ p ∈ ps, 0 ≤ p) :
    List.Chain' (fun a b => b ≤ a) (runningScores total ps) := by
  induction ps generalizing total with
  | nil => simp [runningScores]
  | cons p ps ih =>
    rw [runningScores]
    refine List.chain'_cons'.2
      ⟨?_, ih (total - p) (fun v hv => h v (List.mem_cons_of_mem _ hv))⟩
    intro b hb
    simp only [runningScores_head, Option.mem_def, Option.some.injEq] at hb
    have hp := h p (List.mem_cons_self p ps)
    omega

/-- C3 counterexample: a Gaia non-detection in verification mode terminates the
run (the code calls `exit`), contradicting the claim that an empty result at any
of the four catalogue stages soft-fails by 1 and never terminates the run. -/
theorem c3_counterexample :
    cal_checker 0 false (some ⟨some 8, some 6, some (2/5)⟩) [] (some ⟨0, 0, 0, 0⟩)
      (some ⟨0, 0⟩) = none := by
  norm_num [cal_checker]

/-- C3 (amended): a non-detection at the JSDC, Kervella, or Cruzalebes stage
soft-fails by exactly 1 point and the run continues to a final classification,
but a non-detection at the Gaia stage terminates the run. -/
theorem c3_amended (starDec : ℚ) (compCheck : Bool) (jmmcResp : Option JmmcVRow)
    (g0 : GaiaVRow) (rest : List GaiaVRow) (kervResp : Option KervVRow)
    (cruzResp : Option CruzVRow) (h : ¬ starDec ≤ -25) :
    (cal_checker starDec compCheck jmmcResp (g0 :: rest) kervResp cruzResp).isSome = true ∧
    jmmcPenalty none = 1 ∧ kervPenalty none = 1 ∧ cruzPenalty none = 1 ∧
    cal_checker starDec compCheck jmmcResp [] kervResp cruzResp = none := by
  refine ⟨?_, rfl, rfl, rfl, ?_⟩ <;> simp [cal_checker, h]

/-- C3 witness: the amended theorem applied to a candidate at declination 0 with
a single Gaia match and no JSDC, Kervella, or Cruzalebes detections. -/
theorem c3_amended_witness :
    ¬ (0 : ℚ) ≤ -25 ∧
    ((cal_checker 0 false none (gVRow :: []) none none).isSome = true ∧
      jmmcPenalty none = 1 ∧ kervPenalty none = 1 ∧ cruzPenalty none = 1 ∧
      cal_checker 0 false none [] none none = none) :=
  ⟨by norm_num, c3_amended 0 false none gVRow [] none none (by norm_num)⟩

/-- C6 counterexample: the claimed lower bound
`initial_total − 5 × (hard-fail stages) − 1 × (soft-fail stages)` fails.  With
the companion check disabled there are two hard-fail-policy stages (Gaia,
Kervella) and two soft-fail-policy stages (JSDC, Cruzalebes), so the claimed
bound is `4 − 5·2 − 1·2 = −8`; but a candidate failing JSDC, exceeding the
IPDfmp, RUWE and Vbroad thresholds (the Gaia stage then deducts 1 + 5 = 6),
failing Kervella binarity and failing the MDFC flags reaches score −9. -/
theorem c6_counterexample :
    cal_checker 0 false (some ⟨some 10, some 6, some (2/5)⟩)
        [⟨some 3, some 2, some 0, some 200⟩] (some ⟨1, 0, 0, 0⟩) (some ⟨1, 0⟩) =
      some (-9, 4, Classification.notViable) ∧
    ¬ ((-9 : ℤ) ≥ 4 - 5 * 2 - 1 * 2) := by
  constructor
  · norm_num [cal_checker, checkerPenalties, jmmcPenalty, jmmcCheckFail, companionPenalty,
      gaiaCheck, gaiaThresholdFail, maskedGT, kervPenalty, kervCheckFail, cruzPenalty,
      cruzCheckFail, initTotal, classify]
  · norm_num

/-- C6 (amended): the running pass count of `cal_checker` is monotonically
non-increasing across the five decrement points, and the final score is bounded
below by `initial_total − 13` with the companion check disabled and
`initial_total − 14` with it enabled: the worst-case stage deductions are
1 (JSDC) + 1 (companion, only when enabled) + 6 (Gaia: 1 for the stage plus 5
for `Vbroad > 100`) + 5 (Kervella) + 1 (Cruzalebes). -/
theorem c6_amended (compCheck : Bool) (jmmcResp : Option JmmcVRow) (g0 : GaiaVRow)
    (hasCompanions : Bool) (kervResp : Option KervVRow) (cruzResp : Option CruzVRow) :
    List.Chain' (fun a b => b ≤ a)
      (runningScores (initTotal compCheck)
        (checkerPenalties compCheck jmmcResp g0 hasCompanions kervResp cruzResp)) ∧
    initTotal compCheck -
        (checkerPenalties compCheck jmmcResp g0 hasCompanions kervResp cruzResp).sum ≥
      initTotal compCheck - 13 - (if compCheck then 1 else 0) := by
  obtain ⟨h1a, h1b⟩ := jmmcPenalty_bounds jmmcResp
  obtain ⟨h2a, h2b⟩ := companionPenalty_bounds compCheck hasCompanions
  obtain ⟨h3a, h3b⟩ := gaiaCheck_bounds g0
  obtain ⟨h4a, h4b⟩ := kervPenalty_bounds kervResp
  obtain ⟨h5a, h5b⟩ := cruzPenalty_bounds cruzResp
  constructor
  · apply runningScores_chain
    intro p hp
    simp only [checkerPenalties, List.mem_cons, List.not_mem_nil, or_false] at hp
    rcases hp with rfl | rfl | rfl | rfl | rfl <;> assumption
  · simp only [checkerPenalties, List.sum_cons, List.sum_nil]
    cases compCheck <;> simp_all <;> omega

theorem classify_spec (score total : ℤ) :
    (classify score total = Classification.ideal ↔ (score : ℚ) / (total : ℚ) = 1) ∧
    (classify score total = Classification.usable ↔
      ((score : ℚ) / (total : ℚ) < 1 ∧ (score : ℚ) / (total : ℚ) ≥ 7/10)) ∧
    (classify score total = Classification.notViable ↔
      (¬ (score : ℚ) / (total : ℚ) = 1 ∧
        ¬ ((score : ℚ) / (total : ℚ) < 1 ∧ (score : ℚ) / (total : ℚ) ≥ 7/10))) := by
  unfold classify
  split_ifs with h1 h2 <;> simp_all

/-- C8: whenever `cal_checker` runs to completion, the total is 4 (5 with the
companion check enabled) and the final classification is "ideal" iff
`score/total = 1`, "usable" iff `0.7 ≤ score/total < 1`, and "not viable"
(with the bad-calibrator-registry recommendation) otherwise. -/
theorem c8_classification (starDec : ℚ) (compCheck : Bool) (jmmcResp : Option JmmcVRow)
    (gaiaResp : List GaiaVRow) (kervResp : Option KervVRow) (cruzResp : Option CruzVRow)
    (s t : ℤ) (cl : Classification)
    (h : cal_checker starDec compCheck jmmcResp gaiaResp kervResp cruzResp = some (s, t, cl)) :
    t = (if compCheck then 5 else 4) ∧
    (cl = Classification.ideal ↔ (s : ℚ) / (t : ℚ) = 1) ∧
    (cl = Classification.usable ↔ ((s : ℚ) / (t : ℚ) < 1 ∧ (s : ℚ) / (t : ℚ) ≥ 7/10)) ∧
    (cl = Classification.notViable ↔
      (¬ (s : ℚ) / (t : ℚ) = 1 ∧ ¬ ((s : ℚ) / (t : ℚ) < 1 ∧ (s : ℚ) / (t : ℚ) ≥ 7/10))) := by
  unfold cal_checker at h
  split at h
  · exact absurd h (by simp)
  · split at h
    · exact absurd h (by simp)
    · simp only [Option.some.injEq, Prod.mk.injEq] at h
      obtain ⟨hs, ht, hcl⟩ := h
      subst hs
      subst ht
      subst hcl
      exact ⟨rfl, classify_spec _ _⟩

/-- C8 witness: a candidate passing all four checks with the companion check
disabled scores 4/4 and is classified "ideal". -/
theorem c8_classification_witness :
    cal_checker 0 false (some ⟨some 8, some 6, some (2/5)⟩) [gVRow] (some ⟨0, 0, 0, 0⟩)
        (some ⟨0, 0⟩) = some (4, 4, Classification.ideal) ∧
    ((4 : ℤ) = (if (false : Bool) then 5 else 4) ∧
      (Classification.ideal = Classification.ideal ↔ ((4 : ℤ) : ℚ) / ((4 : ℤ) : ℚ) = 1) ∧
      (Classification.ideal = Classification.usable ↔
        (((4 : ℤ) : ℚ) / ((4 : ℤ) : ℚ) < 1 ∧ ((4 : ℤ) : ℚ) / ((4 : ℤ) : ℚ) ≥ 7/10)) ∧
      (Classification.ideal = Classification.notViable ↔
        (¬ ((4 : ℤ) : ℚ) / ((4 : ℤ) : ℚ) = 1 ∧
          ¬ (((4 : ℤ) : ℚ) / ((4 : ℤ) : ℚ) < 1 ∧ ((4 : ℤ) : ℚ) / ((4 : ℤ) : ℚ) ≥ 7/10)))) :=
  have hrun : cal_checker 0 false (some ⟨some 8, some 6, some (2/5)⟩) [gVRow]
      (some ⟨0, 0, 0, 0⟩) (some ⟨0, 0⟩) = some (4, 4, Classification.ideal) := by
    norm_num [cal_checker, checkerPenalties, jmmcPenalty, jmmcCheckFail, companionPenalty,
      gaiaCheck, gaiaThresholdFail, maskedGT, kervPenalty, kervCheckFail, cruzPenalty,
      cruzCheckFail, initTotal, classify, gVRow]
  ⟨hrun, c8_classification 0 false _ _ _ _ 4 4 Classification.ideal hrun⟩

/-- C1: every row of the assembled discovery-mode output table is traceable
through the chain of catalogue-reported 1-based `_q` back-pointers (each
converted locally to the 0-based index `_q - 1`) to exactly one row of the JSDC
stage's surviving result set, provided each catalogue honoured the cross-match
contract (every back-pointer is a valid 1-based index into its reference
table); rows selected by the later diameter-consistency filter are rows of the
assembled table and therefore carry the same correct pointers, so no row has
orphaned or duplicated provenance. -/
theorem c1_provenance_chain (jmmc : List JmmcRow) (gaia : List GaiaRow)
    (kerv : List KervellaRow) (cruz : List CruzRow)
    (hg : ∀ g ∈ gaia, 1 ≤ g.q ∧ g.q ≤ jmmc.length)
    (hk : ∀ k ∈ kerv, 1 ≤ k.q ∧ k.q ≤ gaia.length)
    (hc : ∀ c ∈ cruz, 1 ≤ c.q ∧ c.q ≤ kerv.length) :
    ∃ rows, fcctRows jmmc gaia kerv cruz = some rows ∧
      (∀ row ∈ diamFilter rows, row ∈ rows) ∧
      (∀ row ∈ rows,
        kerv[row.cruz.q - 1]? = some row.kerv ∧
        gaia[row.kerv.q - 1]? = some row.gaia ∧
        ∃! i : ℕ, i = row.gaia.q - 1 ∧ jmmc[i]? = some row.jmmc) := by
  induction cruz with
  | nil => exact ⟨[], rfl, by simp [diamFilter], by simp⟩
  | cons c cs ih =>
    obtain ⟨rows, hrows, _, htr⟩ := ih (fun x hx => hc x (List.mem_cons_of_mem _ hx))
    obtain ⟨hc1, hc2⟩ := hc c (List.mem_cons_self c cs)
    have hkidx : c.q - 1 < kerv.length := by omega
    have hkget : kerv[c.q - 1]? = some kerv[c.q - 1] := List.getElem?_eq_getElem hkidx
    obtain ⟨hk1, hk2⟩ := hk kerv[c.q - 1] (List.getElem_mem hkidx)
    have hgidx : kerv[c.q - 1].q - 1 < gaia.length := by omega
    have hgget : gaia[kerv[c.q - 1].q - 1]? = some gaia[kerv[c.q - 1].q - 1] :=
      List.getElem?_eq_getElem hgidx
    obtain ⟨hg1, hg2⟩ := hg gaia[kerv[c.q - 1].q - 1] (List.getElem_mem hgidx)
    have hjidx : gaia[kerv[c.q - 1].q - 1].q - 1 < jmmc.length := by omega
    have hjget : jmmc[gaia[kerv[c.q - 1].q - 1].q - 1]? =
        some jmmc[gaia[kerv[c.q - 1].q - 1].q - 1] := List.getElem?_eq_getElem hjidx
    refine ⟨⟨jmmc[gaia[kerv[c.q - 1].q - 1].q - 1], gaia[kerv[c.q - 1].q - 1],
      kerv[c.q - 1], c⟩ :: rows, ?_, ?_, ?_⟩
    · simp [fcctRows, hkget, hgget, hjget, hrows]
    · intro row hrow
      exact List.mem_of_mem_filter hrow
    · intro row hrow
      rcases List.mem_cons.1 hrow with hEq | hmem
      · subst hEq
        exact ⟨hkget, hgget, _, ⟨rfl, hjget⟩, fun y hy => hy.1⟩
      · exact htr row hmem

/-- C1 witness: the provenance theorem applied to a one-row instance of each
catalogue stage, with every back-pointer equal to 1. -/
theorem c1_provenance_chain_witness :
    (∀ g ∈ [gRow], 1 ≤ g.q ∧ g.q ≤ [jRow].length) ∧
    (∀ k ∈ [kRow], 1 ≤ k.q ∧ k.q ≤ [gRow].length) ∧
    (∀ c ∈ [cRow], 1 ≤ c.q ∧ c.q ≤ [kRow].length) ∧
    (∃ rows, fcctRows [jRow] [gRow] [kRow] [cRow] = some rows ∧
      (∀ row ∈ diamFilter rows, row ∈ rows) ∧
      (∀ row ∈ rows,
        [kRow][row.cruz.q - 1]? = some row.kerv ∧
        [gRow][row.kerv.q - 1]? = some row.gaia ∧
        ∃! i : ℕ, i = row.gaia.q - 1 ∧ [jRow][i]? = some row.jmmc)) :=
  ⟨by decide, by decide, by decide,
    c1_provenance_chain [jRow] [gRow] [kRow] [cRow] (by decide) (by decide) (by decide)⟩

/-- C4 counterexample: the claim that discovery mode persists no output file
when the final survivor set is empty is false: a run in which all four
catalogue queries return one row but the assembled row fails the
diameter-consistency filter still completes and writes the file, with an empty
survivor table. -/
theorem c4_counterexample :
    cal_finder 0 [jRow] (fun _ => [gRow]) (fun _ _ => []) (fun _ => [kRow])
        (fun _ => [cFarRow]) none = some [] ∧
    (some ([] : List FinalRow)).isSome = true := by
  refine ⟨?_, rfl⟩
  norm_num [cal_finder, finderGaia, pyTruthy, fcctRows, diamFilter, jRow, gRow, kRow,
    cFarRow, abs_lt]

/-- C4 (amended): the discovery-mode output file is persisted exactly when the
pipeline runs to completion — declination above the limit, all four catalogue
queries non-empty, and the back-pointer indexing succeeding — regardless of
whether the survivor set after the diameter-consistency filter is empty. -/
theorem c4_amended (starDec : ℚ) (jmmcResp : List JmmcRow)
    (gaiaQuery : List JmmcRow → List GaiaRow)
    (neighborsQuery : List GaiaRow → ℚ → List GaiaRow)
    (kervQuery : List GaiaRow → List KervellaRow)
    (cruzQuery : List KervellaRow → List CruzRow)
    (compCheck : Option ℚ) (asm : List FinalRow)
    (h1 : ¬ starDec ≤ -25) (h2 : jmmcResp ≠ []) (h3 : gaiaQuery jmmcResp ≠ [])
    (h4 : kervQuery (finderGaia gaiaQuery neighborsQuery compCheck jmmcResp) ≠ [])
    (h5 : cruzQuery (kervQuery (finderGaia gaiaQuery neighborsQuery compCheck jmmcResp)) ≠ [])
    (h6 : fcctRows jmmcResp (finderGaia gaiaQuery neighborsQuery compCheck jmmcResp)
        (kervQuery (finderGaia gaiaQuery neighborsQuery compCheck jmmcResp))
        (cruzQuery (kervQuery (finderGaia gaiaQuery neighborsQuery compCheck jmmcResp))) =
        some asm) :
    cal_finder starDec jmmcResp gaiaQuery neighborsQuery kervQuery cruzQuery compCheck =
      some (diamFilter asm) := by
  simp [cal_finder, h1, h2, h3, h4, h5, h6]

/-- C4 witness: the amended theorem applied to a completing one-row pipeline
whose assembled row survives the diameter-consistency filter. -/
theorem c4_amended_witness :
    ¬ (0 : ℚ) ≤ -25 ∧ [jRow] ≠ [] ∧ [gRow] ≠ ([] : List GaiaRow) ∧
    [kRow] ≠ ([] : List KervellaRow) ∧ [cRow] ≠ ([] : List CruzRow) ∧
    cal_finder 0 [jRow] (fun _ => [gRow]) (fun _ _ => []) (fun _ => [kRow])
        (fun _ => [cRow]) none =
      some (diamFilter [⟨jRow, gRow, kRow, cRow⟩]) :=
  ⟨by norm_num, by simp, by simp, by simp, by simp,
    c4_amended 0 [jRow] (fun _ => [gRow]) (fun _ _ => []) (fun _ => [kRow])
      (fun _ => [cRow]) none [⟨jRow, gRow, kRow, cRow⟩]
      (by norm_num) (by simp) (by simp)
      (by simp [finderGaia, pyTruthy]) (by simp [finderGaia, pyTruthy])
      (by simp [finderGaia, pyTruthy, fcctRows, jRow, gRow, kRow, cRow])⟩

end Catch
